import Mathlib

/-!
Verification of the statistical classification core of the River Level
Extreme Conditions Monitor (`river_monitor.py`).

The core consists of `calculate_percentiles` (empirical percentile rank of a
current reading against a historical sample), `classify_condition` (mapping a
percentile to a severity tier via an ordered if/elif chain over configured
thresholds), `check_site_conditions` (per-site orchestration) and
`monitor_all_sites` (batch evaluation).

Modelling choices:
* Numeric observations are IEEE floats in the source.  The claims under study
  concern only counting, strict/loose comparisons and exact division, so
  values are embedded as `RValue`: either `nan` (a missing / not-a-number
  entry) or a rational number.  Comparisons against `nan` are `false`, as in
  IEEE arithmetic and numpy.
* A pandas DataFrame that may be `None` is embedded as `Option (List RValue)`
  (the first column of the frame, in row order); timestamps are carried by
  the source only for display and are not modelled.
* numpy's `np.min` / `np.max` raise `ValueError` on an empty array; this is
  embedded by letting `check_site_conditions` return
  `Except String (Option SiteConditionReport)`, where `Except.error` models a
  raised exception and `Except.ok none` models the Python `return None`.
* The threshold globals `VERY_LOW_PERCENTILE`, `LOW_FLOW_PERCENTILE`,
  `HIGH_FLOW_PERCENTILE`, `VERY_HIGH_PERCENTILE` of `config.py` are gathered
  into an explicit `ThresholdConfig` parameter; `defaultConfig` holds the
  shipped values 5, 10, 90, 95.
-/

/-- A numeric observation as it appears in a fetched series: either a
missing / not-a-number entry or an actual number (embedded as a rational). -/
inductive RValue where
  | nan : RValue
  | num : ℚ → RValue
deriving DecidableEq, Repr

/-- `np.isnan` on a single value. -/
def isnan : RValue → Bool
  | .nan => true
  | .num _ => false

/-- IEEE strict less-than: any comparison involving NaN is false. -/
def rlt : RValue → RValue → Bool
  | .num a, .num b => a < b
  | _, _ => false

/-- IEEE less-or-equal: any comparison involving NaN is false. -/
def rle : RValue → RValue → Bool
  | .num a, .num b => a ≤ b
  | _, _ => false

/-- The NaN-filtering step `values = values[~np.isnan(values)]`. -/
def dropNaN (l : List RValue) : List RValue :=
  l.filter (fun x => !(isnan x))

/-- `RiverMonitor.calculate_percentiles(historical_df, current_value)`
(`river_monitor.py` lines 115–138).  `none` for the historical argument
models `historical_df is None`; the list is the first column of the frame.
Returns `none` ("Unavailable") when the frame is `None`, empty, or empty
after NaN filtering; otherwise the fraction of filtered values strictly
below `current`, scaled to 0–100. -/
def calculate_percentiles (historical : Option (List RValue)) (current : RValue) :
    Option ℚ :=
  match historical with
  | none => none
  | some h =>
    if h.length = 0 then none
    else
      let values := dropNaN h
      if values.length = 0 then none
      else some (((values.countP (fun x => rlt x current) : ℚ) /
                  (values.length : ℚ)) * 100)

/-- The six severity tiers produced by `classify_condition` (the source uses
the strings "SEVERE LOW", "LOW", "NORMAL", "HIGH", "SEVERE HIGH", "UNKNOWN"). -/
inductive Severity where
  | SEVERE_LOW : Severity
  | LOW : Severity
  | NORMAL : Severity
  | HIGH : Severity
  | SEVERE_HIGH : Severity
  | UNKNOWN : Severity
deriving DecidableEq, Repr

open Severity

/-- The four percentile thresholds of `config.py`, passed explicitly. -/
structure ThresholdConfig where
  veryLow : ℚ
  low : ℚ
  high : ℚ
  veryHigh : ℚ
deriving DecidableEq, Repr

/-- The values shipped in `config.py`: `VERY_LOW_PERCENTILE = 5`,
`LOW_FLOW_PERCENTILE = 10`, `HIGH_FLOW_PERCENTILE = 90`,
`VERY_HIGH_PERCENTILE = 95`. -/
def defaultConfig : ThresholdConfig :=
  { veryLow := 5, low := 10, high := 90, veryHigh := 95 }

/-- `RiverMonitor.classify_condition(percentile)` (`river_monitor.py`
lines 140–162): the ordered if/elif chain, with the `config` globals made an
explicit parameter.  `none` models `percentile is None`. -/
def classify_condition (cfg : ThresholdConfig) (percentile : Option ℚ) :
    Severity × String :=
  match percentile with
  | none => (UNKNOWN, "Insufficient data")
  | some p =>
    if p ≤ cfg.veryLow then (SEVERE_LOW, "Severe drought conditions")
    else if p ≤ cfg.low then (LOW, "Below normal flow (drought)")
    else if p ≥ cfg.veryHigh then (SEVERE_HIGH, "Severe flood conditions")
    else if p ≥ cfg.high then (HIGH, "Above normal flow (flood risk)")
    else (NORMAL, "Normal flow conditions")

/-- Modelled from the spec (§4.2): the classifier as an explicit ordered list
of (predicate, result) rules, evaluated first-match-wins with a default.
Used to state the refinement claim that the source's if/elif chain realises
exactly this rule list in this order. -/
def specRules (cfg : ThresholdConfig) :
    List ((Option ℚ → Bool) × (Severity × String)) :=
  [ (fun p => p.isNone, (UNKNOWN, "Insufficient data")),
    (fun p => (p.map (fun q => decide (q ≤ cfg.veryLow))).getD false,
      (SEVERE_LOW, "Severe drought conditions")),
    (fun p => (p.map (fun q => decide (q ≤ cfg.low))).getD false,
      (LOW, "Below normal flow (drought)")),
    (fun p => (p.map (fun q => decide (q ≥ cfg.veryHigh))).getD false,
      (SEVERE_HIGH, "Severe flood conditions")),
    (fun p => (p.map (fun q => decide (q ≥ cfg.high))).getD false,
      (HIGH, "Above normal flow (flood risk)")) ]

/-- First-match-wins evaluation of an ordered rule list with a default. -/
def firstMatch (p : Option ℚ) :
    List ((Option ℚ → Bool) × (Severity × String)) → (Severity × String) →
    (Severity × String)
  | [], d => d
  | (pred, r) :: rest, d => if pred p then r else firstMatch p rest d

/-- Modelled from the spec (§4.2): the classifier specified as the ordered
decision list with default `NORMAL`. -/
def classifySpec (cfg : ThresholdConfig) (percentile : Option ℚ) :
    Severity × String :=
  firstMatch percentile (specRules cfg) (NORMAL, "Normal flow conditions")

/-- The numeric entries of a fetched column, in order (the content of
`values[~np.isnan(values)]` seen as plain numbers). -/
def numericValues (l : List RValue) : List ℚ :=
  l.filterMap (fun x => match x with | .num r => some r | .nan => none)

/-- `np.min` over a nonempty list. -/
def npMin (v : ℚ) (vs : List ℚ) : ℚ := vs.foldl min v

/-- `np.max` over a nonempty list. -/
def npMax (v : ℚ) (vs : List ℚ) : ℚ := vs.foldl max v

/-- `np.median`: mean of the two middle order statistics (even length) or the
middle order statistic (odd length). -/
def npMedian (l : List ℚ) : ℚ :=
  let s := l.insertionSort (fun a b => a ≤ b)
  let n := l.length
  if n % 2 = 1 then s.getD (n / 2) 0
  else (s.getD (n / 2 - 1) 0 + s.getD (n / 2) 0) / 2

/-- The per-site result dictionary built by `check_site_conditions`
(`river_monitor.py` lines 198–208); `current_time` is display-only and not
modelled. -/
structure SiteConditionReport where
  site_number : String
  current_value : RValue
  percentile : Option ℚ
  severity : Severity
  description : String
  historical_min : ℚ
  historical_max : ℚ
  historical_median : ℚ
deriving DecidableEq, Repr

/-- `RiverMonitor.check_site_conditions(site_number)` (`river_monitor.py`
lines 164–210), with the two fetches made explicit inputs: `currentData`
is the first column of the 7-day instantaneous frame (or `none` when the
fetch failed), `historicalData` the first column of the daily-values frame.
`Except.ok none` models `return None`; `Except.error` models an uncaught
exception — `np.min(values)` raises `ValueError` when `values` is empty. -/
def check_site_conditions (cfg : ThresholdConfig) (site : String)
    (currentData : Option (List RValue))
    (historicalData : Option (List RValue)) :
    Except String (Option SiteConditionReport) :=
  match currentData with
  | none => .ok none
  | some cs =>
    if cs.length = 0 then .ok none
    else
      match historicalData with
      | none => .ok none
      | some h =>
        let current_value := cs.getLastD .nan
        let percentile := calculate_percentiles (some h) current_value
        let sd := classify_condition cfg percentile
        match numericValues h with
        | [] =>
          .error "ValueError: zero-size array to reduction operation minimum which has no identity"
        | q :: qs =>
          .ok (some
            { site_number := site
              current_value := current_value
              percentile := percentile
              severity := sd.1
              description := sd.2
              historical_min := npMin q qs
              historical_max := npMax q qs
              historical_median := npMedian (q :: qs) })

/-- One configured site together with the results of its two fetches:
`(site_number, current frame, historical frame)`. -/
abbrev SiteFetch := String × Option (List RValue) × Option (List RValue)

/-- `RiverMonitor.monitor_all_sites()` (`river_monitor.py` lines 212–226):
evaluates the configured sites in order, appending each non-`None` result;
an exception raised by a site's evaluation propagates (aborts the loop). -/
def monitor_all_sites (cfg : ThresholdConfig) :
    List SiteFetch → Except String (List SiteConditionReport)
  | [] => .ok []
  | s :: rest =>
    match check_site_conditions cfg s.1 s.2.1 s.2.2 with
    | .error e => .error e
    | .ok none => monitor_all_sites cfg rest
    | .ok (some r) => (monitor_all_sites cfg rest).map (fun l => r :: l)

/-! ### Helper lemmas shared by several claims -/

/-- Unfolding lemma: on a sample that stays non-empty after NaN filtering,
`calculate_percentiles` returns the strict-less-than count over the filtered
values, divided by their number, times 100. -/
theorem calculate_percentiles_formula (h : List RValue) (v : RValue)
    (hne : dropNaN h ≠ []) :
    calculate_percentiles (some h) v =
      some ((((dropNaN h).countP (fun x => rlt x v) : ℚ) /
             ((dropNaN h).length : ℚ)) * 100) := by
  have hh : h.length ≠ 0 := by
    intro e
    apply hne
    simp [dropNaN, List.length_eq_zero.mp e]
  have hvl : (dropNaN h).length ≠ 0 := fun e => hne (List.length_eq_zero.mp e)
  simp [calculate_percentiles, hh, hvl]

/-- Strict less-than on observations is asymmetric. -/
theorem rlt_asymm (a b : RValue) (hab : rlt a b = true) : rlt b a = false := by
  cases a <;> cases b <;> simp_all [rlt]
  linarith

/-- Strict less-than composes with less-or-equal on the right. -/
theorem rlt_of_rlt_of_rle (a b c : RValue) (hab : rlt a b = true)
    (hbc : rle b c = true) : rlt a c = true := by
  cases a <;> cases b <;> cases c <;> simp_all [rlt, rle]
  linarith

/-! ### The claims -/

/-- Claim C1: for every historical sample that is non-empty after filtering
out not-a-number entries, and every current value v, `calculate_percentiles`
returns (count of filtered historical values strictly less than v) divided by
(count of filtered historical values), times 100; values exactly equal to v
are not counted. -/
theorem C1_percentile_is_strict_rank (h : List RValue) (v : RValue)
    (hne : dropNaN h ≠ []) :
    calculate_percentiles (some h) v =
      some ((((dropNaN h).countP (fun x => rlt x v) : ℚ) /
             ((dropNaN h).length : ℚ)) * 100) :=
  calculate_percentiles_formula h v hne

/-- Witness for C1 at the sample [1, NaN, 3] and current value 2:
one of the two filtered values is strictly below 2, so the rank is 50. -/
theorem C1_percentile_is_strict_rank_witness :
    dropNaN [RValue.num 1, RValue.nan, RValue.num 3] ≠ [] ∧
    calculate_percentiles (some [RValue.num 1, RValue.nan, RValue.num 3])
        (RValue.num 2) =
      some ((((dropNaN [RValue.num 1, RValue.nan, RValue.num 3]).countP
               (fun x => rlt x (RValue.num 2)) : ℚ) /
             ((dropNaN [RValue.num 1, RValue.nan, RValue.num 3]).length : ℚ))
            * 100) :=
  ⟨by decide, C1_percentile_is_strict_rank _ _ (by decide)⟩

/-- Claim C4: `calculate_percentiles` returns Unavailable (`none`) — not zero
and not an error — whenever the historical sample is empty or becomes empty
after filtering out not-a-number entries, and also when the frame itself is
absent. -/
theorem C4_empty_sample_unavailable (h : List RValue) (v : RValue)
    (he : dropNaN h = []) :
    calculate_percentiles (some h) v = none ∧
    calculate_percentiles none v = none := by
  refine ⟨?_, rfl⟩
  by_cases hl : h.length = 0 <;> simp [calculate_percentiles, hl, he]

/-- Witness for C4 at the all-NaN sample [NaN, NaN] and current value 7. -/
theorem C4_empty_sample_unavailable_witness :
    dropNaN [RValue.nan, RValue.nan] = [] ∧
    calculate_percentiles (some [RValue.nan, RValue.nan]) (RValue.num 7) =
      none ∧
    calculate_percentiles none (RValue.num 7) = none :=
  ⟨by decide, C4_empty_sample_unavailable [RValue.nan, RValue.nan] (RValue.num 7)
    (by decide)⟩

/-- Claim C5: on an Unavailable (`none`) percentile, `classify_condition`
returns exactly (UNKNOWN, "Insufficient data"), for every threshold
configuration. -/
theorem C5_unavailable_is_unknown (cfg : ThresholdConfig) :
    classify_condition cfg none = (UNKNOWN, "Insufficient data") := rfl

/-- Claim C2: `classify_condition` evaluates exactly the ordered rule list of
the spec — Unavailable, then ≤ very-low, then ≤ low, then ≥ very-high, then
≥ high, default NORMAL — with first-match-wins precedence, for every
percentile and every threshold configuration, including misconfigured ones. -/
theorem C2_classifier_is_ordered_rule_list (cfg : ThresholdConfig)
    (p : Option ℚ) : classify_condition cfg p = classifySpec cfg p := by
  cases p with
  | none => rfl
  | some q =>
    by_cases h1 : q ≤ cfg.veryLow <;> by_cases h2 : q ≤ cfg.low <;>
      by_cases h3 : cfg.veryHigh ≤ q <;> by_cases h4 : cfg.high ≤ q <;>
      simp [classify_condition, classifySpec, specRules, firstMatch,
        h1, h2, h3, h4, ge_iff_le]

/-- Claim C8: `classify_condition` is total — for every numeric percentile
and every threshold configuration, including ones violating the ordering
invariant, it returns one of the six fixed (severity, description) pairs,
namely the one picked by the ordered rule precedence. -/
theorem C8_classifier_total (cfg : ThresholdConfig) (p : Option ℚ) :
    classify_condition cfg p ∈
      [(UNKNOWN, "Insufficient data"),
       (SEVERE_LOW, "Severe drought conditions"),
       (LOW, "Below normal flow (drought)"),
       (SEVERE_HIGH, "Severe flood conditions"),
       (HIGH, "Above normal flow (flood risk)"),
       (NORMAL, "Normal flow conditions")] ∧
    classify_condition cfg p = classifySpec cfg p := by
  constructor
  · cases p with
    | none => simp [classify_condition]
    | some q =>
      by_cases h1 : q ≤ cfg.veryLow <;> by_cases h2 : q ≤ cfg.low <;>
        by_cases h3 : cfg.veryHigh ≤ q <;> by_cases h4 : cfg.high ≤ q <;>
        simp [classify_condition, h1, h2, h3, h4, ge_iff_le]
  · cases p with
    | none => rfl
    | some q =>
      by_cases h1 : q ≤ cfg.veryLow <;> by_cases h2 : q ≤ cfg.low <;>
        by_cases h3 : cfg.veryHigh ≤ q <;> by_cases h4 : cfg.high ≤ q <;>
        simp [classify_condition, classifySpec, specRules, firstMatch,
          h1, h2, h3, h4, ge_iff_le]

/-- Claim C6: on a sample non-empty after filtering, the percentile lies in
[0, 100]; it is 0 when the current value is below every filtered value; and
it is 100 exactly when the current value is strictly above every filtered
value (a tie with the maximum stays below 100). -/
theorem C6_range_and_extremes (h : List RValue) (v : RValue)
    (hne : dropNaN h ≠ []) :
    ∃ q, calculate_percentiles (some h) v = some q ∧
      0 ≤ q ∧ q ≤ 100 ∧
      ((∀ x ∈ dropNaN h, rlt v x = true) → q = 0) ∧
      (q = 100 ↔ ∀ x ∈ dropNaN h, rlt x v = true) := by
  have hn : 0 < (dropNaN h).length := List.length_pos.mpr hne
  have hnQ : (0:ℚ) < ((dropNaN h).length : ℚ) := by exact_mod_cast hn
  refine ⟨_, calculate_percentiles_formula h v hne, ?_, ?_, ?_, ?_⟩
  · positivity
  · have hcle : (dropNaN h).countP (fun x => rlt x v) ≤ (dropNaN h).length :=
      List.countP_le_length _
    have hdl : ((dropNaN h).countP (fun x => rlt x v) : ℚ) /
        ((dropNaN h).length : ℚ) ≤ 1 := by
      rw [div_le_one hnQ]; exact_mod_cast hcle
    nlinarith
  · intro hall
    have hz : (dropNaN h).countP (fun x => rlt x v) = 0 := by
      rw [List.countP_eq_zero]
      intro x hx
      simp [rlt_asymm v x (hall x hx)]
    rw [hz]
    norm_num
  · constructor
    · intro hq
      have h1 : ((dropNaN h).countP (fun x => rlt x v) : ℚ) /
          ((dropNaN h).length : ℚ) = 1 := by linarith
      rw [div_eq_one_iff_eq hnQ.ne'] at h1
      have h2 : (dropNaN h).countP (fun x => rlt x v) = (dropNaN h).length := by
        exact_mod_cast h1
      exact List.countP_eq_length.mp h2
    · intro hall
      have h2 : (dropNaN h).countP (fun x => rlt x v) = (dropNaN h).length :=
        List.countP_eq_length.mpr hall
      rw [h2, div_self hnQ.ne']
      norm_num

/-- Witness for C6 at the sample [1, NaN, 3] and current value 5. -/
theorem C6_range_and_extremes_witness :
    dropNaN [RValue.num 1, RValue.nan, RValue.num 3] ≠ [] ∧
    ∃ q, calculate_percentiles (some [RValue.num 1, RValue.nan, RValue.num 3])
        (RValue.num 5) = some q ∧
      0 ≤ q ∧ q ≤ 100 ∧
      ((∀ x ∈ dropNaN [RValue.num 1, RValue.nan, RValue.num 3],
          rlt (RValue.num 5) x = true) → q = 0) ∧
      (q = 100 ↔ ∀ x ∈ dropNaN [RValue.num 1, RValue.nan, RValue.num 3],
          rlt x (RValue.num 5) = true) :=
  ⟨by decide, C6_range_and_extremes _ _ (by decide)⟩

/-- Claim C7: for a fixed sample non-empty after filtering, the percentile is
monotonically non-decreasing in the current value. -/
theorem C7_monotone_in_current (h : List RValue) (v1 v2 : RValue)
    (hne : dropNaN h ≠ []) (hle : rle v1 v2 = true) :
    ∃ q1 q2, calculate_percentiles (some h) v1 = some q1 ∧
      calculate_percentiles (some h) v2 = some q2 ∧ q1 ≤ q2 := by
  have hnQ : (0:ℚ) < ((dropNaN h).length : ℚ) := by
    exact_mod_cast List.length_pos.mpr hne
  refine ⟨_, _, calculate_percentiles_formula h v1 hne,
    calculate_percentiles_formula h v2 hne, ?_⟩
  have hcc : (dropNaN h).countP (fun x => rlt x v1) ≤
      (dropNaN h).countP (fun x => rlt x v2) :=
    List.countP_mono_left (fun x _ hx => rlt_of_rlt_of_rle x v1 v2 hx hle)
  gcongr

/-- Witness for C7 at the sample [1, 3] and current values 2 ≤ 4. -/
theorem C7_monotone_in_current_witness :
    dropNaN [RValue.num 1, RValue.num 3] ≠ [] ∧
    rle (RValue.num 2) (RValue.num 4) = true ∧
    ∃ q1 q2,
      calculate_percentiles (some [RValue.num 1, RValue.num 3])
        (RValue.num 2) = some q1 ∧
      calculate_percentiles (some [RValue.num 1, RValue.num 3])
        (RValue.num 4) = some q2 ∧ q1 ≤ q2 :=
  ⟨by decide, by decide, C7_monotone_in_current _ _ _ (by decide) (by decide)⟩

/-- Claim C9: a NaN current value is not filtered: on a sample non-empty
after filtering, `calculate_percentiles` returns 0 (not Unavailable) for a
NaN current value, and under the default thresholds `classify_condition`
then reports SEVERE LOW / "Severe drought conditions". -/
theorem C9_nan_current_severe_low (h : List RValue)
    (hne : dropNaN h ≠ []) :
    calculate_percentiles (some h) RValue.nan = some 0 ∧
    classify_condition defaultConfig
        (calculate_percentiles (some h) RValue.nan) =
      (SEVERE_LOW, "Severe drought conditions") := by
  have hz : (dropNaN h).countP (fun x => rlt x RValue.nan) = 0 := by
    rw [List.countP_eq_zero]
    intro x hx
    cases x <;> simp [rlt]
  have hcalc : calculate_percentiles (some h) RValue.nan = some 0 := by
    rw [calculate_percentiles_formula h RValue.nan hne, hz]
    norm_num
  refine ⟨hcalc, ?_⟩
  rw [hcalc]
  simp [classify_condition, defaultConfig]

/-- Witness for C9 at the one-element sample [1]. -/
theorem C9_nan_current_severe_low_witness :
    dropNaN [RValue.num 1] ≠ [] ∧
    calculate_percentiles (some [RValue.num 1]) RValue.nan = some 0 ∧
    classify_condition defaultConfig
        (calculate_percentiles (some [RValue.num 1]) RValue.nan) =
      (SEVERE_LOW, "Severe drought conditions") :=
  ⟨by decide, C9_nan_current_severe_low [RValue.num 1] (by decide)⟩

/-- Claim C3 (refuting evaluation): when the historical frame is obtained and
non-empty but every entry is NaN, `check_site_conditions` does not return a
report with Unavailable percentile and UNKNOWN severity — the `np.min` call
on the empty filtered array raises `ValueError`, which escapes the
classification core and aborts the run. -/
theorem C3_insufficient_history_raises :
    check_site_conditions defaultConfig "03274000"
        (some [RValue.num 3]) (some [RValue.nan]) =
      Except.error
        "ValueError: zero-size array to reduction operation minimum which has no identity" := by
  rfl

/-- The soft-failure half of claim C3, which the code does satisfy: a `None`
or empty current frame, or a `None` historical frame, yields `None` (no
exception). -/
theorem C3_soft_nodata_paths (cfg : ThresholdConfig) (site : String)
    (cs hs : Option (List RValue)) :
    check_site_conditions cfg site none hs = Except.ok none ∧
    check_site_conditions cfg site (some []) hs = Except.ok none ∧
    check_site_conditions cfg site cs none = Except.ok none := by
  refine ⟨rfl, rfl, ?_⟩
  cases cs with
  | none => rfl
  | some l =>
    cases l with
    | nil => rfl
    | cons a t => rfl

/-- Claim C10: when no site's evaluation raises, `monitor_all_sites` returns
exactly the non-`None` per-site results, in the order of the configured
site list; a site evaluating to `None` is skipped without affecting the
rest. -/
theorem C10_monitor_keeps_order (cfg : ThresholdConfig)
    (sites : List SiteFetch)
    (hok : ∀ s ∈ sites,
      ∃ r, check_site_conditions cfg s.1 s.2.1 s.2.2 = Except.ok r) :
    monitor_all_sites cfg sites =
      Except.ok (sites.filterMap (fun s =>
        match check_site_conditions cfg s.1 s.2.1 s.2.2 with
        | .ok r => r
        | .error _ => none)) := by
  induction sites with
  | nil => rfl
  | cons s rest ih =>
    obtain ⟨r, hr⟩ := hok s (List.mem_cons_self s rest)
    have hrest := ih (fun s' hm => hok s' (List.mem_cons_of_mem _ hm))
    cases r with
    | none => simp [monitor_all_sites, hr, List.filterMap_cons, hrest]
    | some rep =>
      simp [monitor_all_sites, hr, List.filterMap_cons, hrest, Except.map]

/-- Two concrete configured sites: the first fully fetched, the second with
both fetches failed. -/
def demoSites : List SiteFetch :=
  [("01646500", some [RValue.num 5],
     some [RValue.num 1, RValue.num 2, RValue.num 3]),
   ("03274000", none, none)]

/-- Witness for C10 on `demoSites`: the second site evaluates to `None` and
is skipped; the first site's report survives in order. -/
theorem C10_monitor_keeps_order_witness :
    (∀ s ∈ demoSites,
      ∃ r, check_site_conditions defaultConfig s.1 s.2.1 s.2.2 =
        Except.ok r) ∧
    monitor_all_sites defaultConfig demoSites =
      Except.ok (demoSites.filterMap (fun s =>
        match check_site_conditions defaultConfig s.1 s.2.1 s.2.2 with
        | .ok r => r
        | .error _ => none)) :=
  ⟨by intro s hs; fin_cases hs <;> exact ⟨_, rfl⟩,
   C10_monitor_keeps_order defaultConfig demoSites
     (by intro s hs; fin_cases hs <;> exact ⟨_, rfl⟩)⟩
